import Mathlib

/-!
# Verification of the duplex-stream sync pipeline and credential lifecycle

Shallow embedding of the Rust sources under `apps/desktop/src-tauri/src/`:
`sync.rs` (sync engine and queue), `db.rs` (persisted sync-state store),
`token_manager.rs` (token lifecycle manager), `auth.rs` (device-code flow),
`oauth.rs` (PKCE challenge generation), `config.rs` (credentials expiry).

Machine integers are modelled as `Nat`/`Int`; 32-bit overflow in SHA-256 is
explicit `% 2^32`.  Filesystem reads, the SQLite connection, the HTTP client
and the random generator are passed in explicitly (a read is a function
`String → Option String`, the store is a function from path to optional row,
the provider is a scripted list of responses, the 32 random verifier bytes are
an argument).
-/

namespace DuplexStream

/-! ## SHA-256 (the `sha2` crate's algorithm, as used by `compute_hash` in
`sync.rs` and `PkceChallenge::generate` in `oauth.rs`)

Bytes are `Nat`s below 256; words are `Nat`s below `2^32`. -/

/-- `2^32`, the modulus for 32-bit words. -/
def M32 : Nat := 4294967296

/-- Right-rotation of a 32-bit word by `n`. -/
def rotr (n x : Nat) : Nat := ((x >>> n) ||| (x <<< (32 - n))) % M32

/-- SHA-256 Σ₀. -/
def bigSigma0 (x : Nat) : Nat := (rotr 2 x) ^^^ (rotr 13 x) ^^^ (rotr 22 x)

/-- SHA-256 Σ₁. -/
def bigSigma1 (x : Nat) : Nat := (rotr 6 x) ^^^ (rotr 11 x) ^^^ (rotr 25 x)

/-- SHA-256 σ₀. -/
def smallSigma0 (x : Nat) : Nat := (rotr 7 x) ^^^ (rotr 18 x) ^^^ (x >>> 3)

/-- SHA-256 σ₁. -/
def smallSigma1 (x : Nat) : Nat := (rotr 17 x) ^^^ (rotr 19 x) ^^^ (x >>> 10)

/-- SHA-256 `Ch`; `¬x` on 32 bits is xor with `2^32 - 1`. -/
def ch (x y z : Nat) : Nat := (x &&& y) ^^^ ((x ^^^ 4294967295) &&& z)

/-- SHA-256 `Maj`. -/
def maj (x y z : Nat) : Nat := (x &&& y) ^^^ (x &&& z) ^^^ (y &&& z)

/-- The 64 SHA-256 round constants. -/
def K : List Nat :=
  [1116352408, 1899447441, 3049323471, 3921009573, 961987163,
   1508970993, 2453635748, 2870763221, 3624381080, 310598401,
   607225278, 1426881987, 1925078388, 2162078206, 2614888103,
   3248222580, 3835390401, 4022224774, 264347078, 604807628,
   770255983, 1249150122, 1555081692, 1996064986, 2554220882,
   2821834349, 2952996808, 3210313671, 3336571891, 3584528711,
   113926993, 338241895, 666307205, 773529912, 1294757372,
   1396182291, 1695183700, 1986661051, 2177026350, 2456956037,
   2730485921, 2820302411, 3259730800, 3345764771, 3516065817,
   3600352804, 4094571909, 275423344, 430227734, 506948616,
   659060556, 883997877, 958139571, 1322822218, 1537002063,
   1747873779, 1955562222, 2024104815, 2227730452, 2361852424,
   2428436474, 2756734187, 3204031479, 3329325298]

/-- The initial SHA-256 hash value. -/
def H0 : List Nat :=
  [1779033703, 3144134277, 1013904242, 2773480762,
   1359893119, 2600822924, 528734635, 1541459225]

/-- A number as `k` big-endian bytes. -/
def toBytesBE : Nat → Nat → List Nat
  | 0, _ => []
  | k + 1, n => toBytesBE k (n / 256) ++ [n % 256]

/-- Pack bytes into big-endian 32-bit words, four at a time. -/
def bytesToWords : List Nat → List Nat
  | a :: b :: c :: d :: rest =>
      (a * 16777216 + b * 65536 + c * 256 + d) :: bytesToWords rest
  | _ => []

/-- SHA-256 padding: append `0x80`, zeros to 56 mod 64 bytes, then the
bit length as 8 big-endian bytes. -/
def padMessage (msg : List Nat) : List Nat :=
  msg ++ [128] ++ List.replicate ((119 - msg.length % 64) % 64) 0
      ++ toBytesBE 8 (msg.length * 8)

/-- Extend a 16-word block to the 64-word message schedule. -/
def extendW (block : List Nat) : Array Nat :=
  (List.range 48).foldl
    (fun w i =>
      w.push ((smallSigma1 (w.getD (i + 14) 0) + w.getD (i + 9) 0
               + smallSigma0 (w.getD (i + 1) 0) + w.getD i 0) % M32))
    block.toArray

/-- The eight working registers of the compression loop. -/
structure Regs where
  a : Nat
  b : Nat
  c : Nat
  d : Nat
  e : Nat
  f : Nat
  g : Nat
  h : Nat

/-- One SHA-256 round. -/
def round (k w : Nat) (r : Regs) : Regs :=
  let t1 := (r.h + bigSigma1 r.e + ch r.e r.f r.g + k + w) % M32
  let t2 := (bigSigma0 r.a + maj r.a r.b r.c) % M32
  ⟨(t1 + t2) % M32, r.a, r.b, r.c, (r.d + t1) % M32, r.e, r.f, r.g⟩

/-- Compress one 16-word block into the running hash (eight words). -/
def compress (hs : List Nat) (block : List Nat) : List Nat :=
  let w := extendW block
  let r0 : Regs :=
    ⟨hs.getD 0 0, hs.getD 1 0, hs.getD 2 0, hs.getD 3 0,
     hs.getD 4 0, hs.getD 5 0, hs.getD 6 0, hs.getD 7 0⟩
  let r := (List.range 64).foldl (fun r i => round (K.getD i 0) (w.getD i 0) r) r0
  [(hs.getD 0 0 + r.a) % M32, (hs.getD 1 0 + r.b) % M32,
   (hs.getD 2 0 + r.c) % M32, (hs.getD 3 0 + r.d) % M32,
   (hs.getD 4 0 + r.e) % M32, (hs.getD 5 0 + r.f) % M32,
   (hs.getD 6 0 + r.g) % M32, (hs.getD 7 0 + r.h) % M32]

/-- Split a word list into blocks of 16; the fuel is the list length, which
always suffices since each step drops 16 words. -/
def chunksAux : Nat → List Nat → List (List Nat)
  | 0, _ => []
  | _, [] => []
  | fuel + 1, ws => ws.take 16 :: chunksAux fuel (ws.drop 16)

/-- Split a padded message's words into 16-word blocks. -/
def chunks16 (ws : List Nat) : List (List Nat) := chunksAux ws.length ws

/-- SHA-256 of a byte string, as 32 digest bytes. -/
def sha256 (msg : List Nat) : List Nat :=
  let blocks := chunks16 (bytesToWords (padMessage msg))
  (blocks.foldl compress H0).foldr (fun w acc => toBytesBE 4 w ++ acc) []

/-! ## Hex and url-safe base64 encodings (the `hex` and `base64` crates'
`encode` and `URL_SAFE_NO_PAD.encode`) -/

/-- Lower-case hex digit. -/
def hexDigit (n : Nat) : Char := "0123456789abcdef".data.getD n '0'

/-- Lower-case hex encoding of bytes (`hex::encode`). -/
def hexEncode (bytes : List Nat) : String :=
  String.mk (bytes.foldr (fun b acc => hexDigit (b / 16) :: hexDigit (b % 16) :: acc) [])

/-- The url-safe base64 alphabet. -/
def b64Alphabet : List Char :=
  "ABCDEFGHIJKLMNOPQRSTUVWXYZabcdefghijklmnopqrstuvwxyz0123456789-_".data

/-- Url-safe base64 character for a 6-bit value. -/
def b64Char (n : Nat) : Char := b64Alphabet.getD n 'A'

/-- Url-safe base64 without padding, three bytes to four characters, with the
standard 2- and 3-character tails for remainders of one and two bytes. -/
def b64Chars : List Nat → List Char
  | a :: b :: c :: rest =>
      b64Char (a / 4) :: b64Char ((a % 4) * 16 + b / 16)
        :: b64Char ((b % 16) * 4 + c / 64) :: b64Char (c % 64) :: b64Chars rest
  | [a, b] => [b64Char (a / 4), b64Char ((a % 4) * 16 + b / 16), b64Char ((b % 16) * 4)]
  | [a] => [b64Char (a / 4), b64Char ((a % 4) * 16)]
  | [] => []

/-- Url-safe base64 encoding without padding (`URL_SAFE_NO_PAD.encode`). -/
def base64UrlNoPad (bytes : List Nat) : String := String.mk (b64Chars bytes)

/-- The UTF-8 bytes of an ASCII string (`str::as_bytes`; every string hashed
or encoded here is ASCII, where UTF-8 bytes are the character codes). -/
def strBytes (s : String) : List Nat := s.data.map Char.toNat

/-- SHA-256 hex digest of a string (`compute_hash` in `sync.rs`). -/
def compute_hash (content : String) : String := hexEncode (sha256 (strBytes content))

/-! ## PKCE challenge generation (`oauth.rs`)

`PkceChallenge::generate` draws 32 random bytes from `thread_rng`; the
generator is external, so the drawn bytes are the argument here. -/

/-- `PkceChallenge` from `oauth.rs`: the verifier and its derived challenge. -/
structure PkceChallenge where
  verifier : String
  challenge : String
deriving DecidableEq, Repr

/-- `PkceChallenge::generate`: url-safe base64 (no padding) of the 32 random
bytes as the verifier; the challenge is the url-safe base64 (no padding) of
the SHA-256 digest of the verifier's bytes. -/
def PkceChallenge.generate (verifier_bytes : List Nat) : PkceChallenge :=
  let verifier := base64UrlNoPad verifier_bytes
  let challenge := base64UrlNoPad (sha256 (strBytes verifier))
  ⟨verifier, challenge⟩

/-! ## Persisted sync state store (`db.rs`)

The `sync_state` table is keyed by `file_path` (TEXT PRIMARY KEY); the store
is modelled as a function from path to the optional row.  Each SQL statement
becomes a function from store to store; a statement that only `UPDATE`s
touches no row when the key is absent. -/

/-- `SyncStatus` from `db.rs`. -/
inductive SyncStatus
  | pending
  | syncing
  | complete
  | error
deriving DecidableEq, Repr

/-- `SyncState` from `db.rs`: one row of the `sync_state` table. -/
structure SyncState where
  file_path : String
  content_hash : String
  last_synced_at : Option Int
  last_modified_at : Int
  workflow_id : Option String
  status : SyncStatus
deriving DecidableEq, Repr

/-- The `sync_state` table: at most one row per path (`file_path` is the
primary key). -/
def Store : Type := String → Option SyncState

/-- `Database::get_sync_state`: SELECT the row for a path. -/
def get_sync_state (db : Store) (file_path : String) : Option SyncState := db file_path

/-- `Database::upsert_sync_state`: INSERT OR, on conflict of `file_path`,
UPDATE every other column to the excluded (new) values. -/
def upsert_sync_state (db : Store) (state : SyncState) : Store :=
  fun p => if p = state.file_path then some state else db p

/-- `Database::update_status`: UPDATE only the status column; no row changes
when the path is absent. -/
def update_status (db : Store) (file_path : String) (status : SyncStatus) : Store :=
  fun p => if p = file_path then (db p).map (fun st => { st with status := status }) else db p

/-- `Database::mark_syncing`: UPDATE status to `'syncing'` for the path. -/
def mark_syncing (db : Store) (file_path : String) : Store :=
  fun p => if p = file_path then (db p).map (fun st => { st with status := .syncing }) else db p

/-- `Database::mark_complete`: UPDATE status to `'complete'`, set the workflow
id and stamp `last_synced_at` with the current time. -/
def mark_complete (db : Store) (file_path : String) (workflow_id : String) (now : Int) :
    Store :=
  fun p =>
    if p = file_path then
      (db p).map (fun st =>
        { st with status := .complete, workflow_id := some workflow_id,
                  last_synced_at := some now })
    else db p

/-! ## Sync engine (`sync.rs`) -/

/-- `SyncError` from `sync.rs`, with the variants the claims reach; transport
and body-decoding failures of `reqwest` are `httpFailure`/`jsonFailure`, file
reads that fail are `ioFailure`. -/
inductive SyncError
  | ioFailure
  | noParser (name : String)
  | parseFailure
  | httpFailure
  | jsonFailure
  | api (msg : String)
  | notAuthenticated
deriving DecidableEq, Repr

/-- `SyncItem` from `sync.rs`: the unit of queued work. -/
structure SyncItem where
  path : String
  parser_name : String
  content_hash : String
deriving DecidableEq, Repr

/-- `FileChangeEvent` from `watcher.rs`: the path and owning parser name. -/
structure FileChangeEvent where
  path : String
  parser_name : String
deriving DecidableEq, Repr

/-- `Conversation` from `parsers/mod.rs`. -/
structure Conversation where
  source_path : String
  source : String
  session_id : Option String
  project_path : Option String
  content : String
deriving DecidableEq, Repr

/-- `ExtractionResponse` from `sync.rs`: the upload endpoint's success body. -/
structure ExtractionResponse where
  workflow_id : String
  status : String
deriving DecidableEq, Repr

/-- The mutable state of `SyncEngine`: the FIFO queue and the database. -/
structure SyncEngine where
  queue : List SyncItem
  db : Store

/-- `SyncEngine::handle_file_change`: read the file (`fs` is the filesystem;
a failed read propagates as an I/O error and changes nothing), hash the
content, skip when the stored hash for the path is identical, otherwise
upsert a fresh Pending row stamped `now` and push a `SyncItem`. -/
def handle_file_change (fs : String → Option String) (now : Int)
    (engine : SyncEngine) (event : FileChangeEvent) :
    Except SyncError Unit × SyncEngine :=
  match fs event.path with
  | none => (.error .ioFailure, engine)
  | some content =>
    let content_hash := compute_hash content
    match get_sync_state engine.db event.path with
    | some existing =>
      if existing.content_hash = content_hash then
        (.ok (), engine)
      else
        (.ok (), { queue := engine.queue ++ [⟨event.path, event.parser_name, content_hash⟩],
                   db := upsert_sync_state engine.db
                     { file_path := event.path, content_hash := content_hash,
                       last_synced_at := none, last_modified_at := now,
                       workflow_id := none, status := .pending } })
    | none =>
        (.ok (), { queue := engine.queue ++ [⟨event.path, event.parser_name, content_hash⟩],
                   db := upsert_sync_state engine.db
                     { file_path := event.path, content_hash := content_hash,
                       last_synced_at := none, last_modified_at := now,
                       workflow_id := none, status := .pending } })

/-- One HTTP response from the upload endpoint: the status code, the body
text, and the body decoded as an `ExtractionResponse` when it decodes. -/
structure HttpResponse where
  status : Nat
  body : String
  json : Option ExtractionResponse
deriving DecidableEq, Repr

/-- The engine's collaborators during `process_next`: whether the registry
holds a parser of a name (`ParserRegistry::get(..).is_some()`), the parser's
parse result per path, the upload endpoint's response per request (`none` is
a transport failure), and the clock read by `mark_complete`. -/
structure SyncEnv where
  hasParser : String → Bool
  parse : String → String → Except SyncError Conversation
  send : Conversation → Option HttpResponse
  now : Int

/-- The response handling of `SyncEngine::upload_conversation`: a 2xx status
(`StatusCode::is_success`, 200–299) decodes the body; 401 is the
distinguished `NotAuthenticated`; any other non-2xx is the generic API error
carrying status and body. -/
def upload_conversation (send : Conversation → Option HttpResponse)
    (conversation : Conversation) : Except SyncError ExtractionResponse :=
  match send conversation with
  | none => .error .httpFailure
  | some response =>
    if 200 ≤ response.status ∧ response.status ≤ 299 then
      match response.json with
      | some r => .ok r
      | none => .error .jsonFailure
    else if response.status = 401 then
      .error .notAuthenticated
    else
      .error (.api (toString response.status ++ ": " ++ response.body))

/-- The body of `SyncEngine::process_next` after the pop: mark the row
Syncing, look up the parser (a miss propagates `NoParser` at once), parse
(a failure propagates at once), upload, and on the upload's outcome mark the
row Complete with the workflow id or set its status to Error. -/
def process_one (env : SyncEnv) (db : Store) (item : SyncItem) :
    Except SyncError String × Store :=
  let db1 := mark_syncing db item.path
  if env.hasParser item.parser_name then
    match env.parse item.parser_name item.path with
    | .error e => (.error e, db1)
    | .ok conversation =>
      match upload_conversation env.send conversation with
      | .ok response =>
          (.ok response.workflow_id,
           mark_complete db1 item.path response.workflow_id env.now)
      | .error e => (.error e, update_status db1 item.path .error)
  else
    (.error (.noParser item.parser_name), db1)

/-- `SyncEngine::process_next`: pop the queue head (FIFO) and process it;
an empty queue returns `none`. -/
def process_next (env : SyncEnv) (engine : SyncEngine) :
    Except SyncError (Option String) × SyncEngine :=
  match engine.queue with
  | [] => (.ok none, engine)
  | item :: rest =>
    let (res, db') := process_one env engine.db item
    (res.map some, { queue := rest, db := db' })

/-- `SyncEngine::process_all`, with fuel: the Rust `while !queue.is_empty()`
loop calling `process_next`, counting successes and continuing past per-item
errors.  The initial queue length is enough fuel because every non-empty
`process_next` pops exactly one item. -/
def process_all_fuel (env : SyncEnv) : Nat → SyncEngine → Nat × SyncEngine
  | 0, engine => (0, engine)
  | fuel + 1, engine =>
    if engine.queue.isEmpty then (0, engine)
    else
      match process_next env engine with
      | (.ok (some _), engine') =>
          let (n, engine'') := process_all_fuel env fuel engine'
          (n + 1, engine'')
      | (.ok none, engine') => (0, engine')
      | (.error _, engine') =>
          let (n, engine'') := process_all_fuel env fuel engine'
          (n, engine'')

/-- `SyncEngine::process_all`: drain the queue, returning the success count. -/
def process_all (env : SyncEnv) (engine : SyncEngine) : Nat × SyncEngine :=
  process_all_fuel env engine.queue.length engine

/-- Whether processing an item succeeds; `process_one`'s outcome depends only
on the item and the collaborators, never on the store. -/
def itemSucceeds (env : SyncEnv) (item : SyncItem) : Bool :=
  env.hasParser item.parser_name &&
    match env.parse item.parser_name item.path with
    | .error _ => false
    | .ok conversation =>
      match upload_conversation env.send conversation with
      | .ok _ => true
      | .error _ => false

/-! ## Authentication types (`auth.rs`, `config.rs`) -/

/-- `AuthError` from `auth.rs`, with the variants the claims reach;
`httpFailure`/`jsonFailure` stand for the transport and body-decoding error
variants, `config` for the wrapped configuration errors. -/
inductive AuthError
  | httpFailure
  | jsonFailure
  | deviceCodeExpired
  | authorizationDenied
  | api (msg : String)
  | config
  | clientIdNotConfigured
deriving DecidableEq, Repr

/-- `WorkOSUser` from `auth.rs`. -/
structure WorkOSUser where
  id : String
  email : Option String
  first_name : Option String
  last_name : Option String
deriving DecidableEq, Repr

/-- `TokenResponse` from `auth.rs`: the token endpoint's success body. -/
structure TokenResponse where
  access_token : String
  refresh_token : String
  expires_in : Nat
  user : WorkOSUser
  organization_id : Option String
deriving DecidableEq, Repr

/-! ## Token lifecycle manager (`token_manager.rs`)

`token_manager.rs` uses `crate::config::SecureTokenStorage`, whose definition
is not among the sources (only its callers are). -/

/-- `TokenRecord`: the token pair plus absolute expiry (epoch seconds) held by
the credential store; the fields `store_tokens` receives and `get_tokens`
returns in `token_manager.rs`. -/
structure TokenRecord where
  access_token : String
  refresh_token : String
  expires_at : Nat
deriving DecidableEq, Repr

/-- Modelled from the spec: `SecureTokenStorage` is missing from the sources
(only its callers in `token_manager.rs`, `auth.rs` and `main.rs` are
present).  The spec describes it as durable key/value persistence holding
one `TokenRecord` under a fixed namespace, exposing store/get/clear. -/
def CredStore : Type := Option TokenRecord

/-- Modelled from the spec: `SecureTokenStorage::store_tokens` replaces the
single held record whole (the spec's TokenRecord lifecycle: mutated in place
by a successful refresh, never partially written). -/
def store_tokens (_ : CredStore) (access_token refresh_token : String)
    (expires_at : Nat) : CredStore :=
  some ⟨access_token, refresh_token, expires_at⟩

/-- Modelled from the spec: `SecureTokenStorage::get_tokens` returns the held
record, or an error (here `none`) when not authenticated. -/
def get_tokens (s : CredStore) : Option TokenRecord := s

/-- Modelled from the spec: `SecureTokenStorage::clear_tokens` deletes the
record on explicit sign-out. -/
def clear_tokens (_ : CredStore) : CredStore := none

/-- `CHECK_INTERVAL_SECS` from `token_manager.rs`. -/
def CHECK_INTERVAL_SECS : Nat := 30

/-- `REFRESH_BUFFER_SECS` from `token_manager.rs`. -/
def REFRESH_BUFFER_SECS : Nat := 60

/-- `TokenManager::do_refresh`: the combined outcome of `get_client_id` and
the `refresh_token` grant exchange is the argument (both fail with an
`AuthError`); on success, store the new pair with expiry `now + expires_in`;
on failure, propagate the error having stored nothing. -/
def do_refresh (refresh_outcome : Except AuthError TokenResponse) (now : Nat)
    (storage : CredStore) : Except AuthError Unit × CredStore :=
  match refresh_outcome with
  | .error e => (.error e, storage)
  | .ok tr =>
      (.ok (),
       store_tokens storage tr.access_token tr.refresh_token (now + tr.expires_in))

/-- One tick of `TokenManager::start_background_refresh`'s loop: read the
stored tokens (none: skip silently); refresh when `expires_at` is within
`REFRESH_BUFFER_SECS` of `now`, keeping the stored record on a refresh
failure (the error is logged and swallowed); otherwise do nothing.  The
second component reports whether a refresh was attempted. -/
def refresh_tick (refresh_outcome : Except AuthError TokenResponse) (now : Nat)
    (storage : CredStore) : CredStore × Bool :=
  match get_tokens storage with
  | none => (storage, false)
  | some token_data =>
    if token_data.expires_at ≤ now + REFRESH_BUFFER_SECS then
      ((do_refresh refresh_outcome now storage).2, true)
    else
      (storage, false)

/-- `Credentials::is_expired` from `config.rs`: expired when within 60
seconds of `expires_at`. -/
def credentials_is_expired (expires_at now : Nat) : Bool :=
  expires_at ≤ now + 60

/-! ## Device-code polling (`auth.rs`)

`poll_for_token`'s provider is scripted as a list of responses, one per
token request the loop sends; time is explicit: the loop's elapsed clock
starts at the caller's value (0 in `login`) and each sleep adds to it.
`login` passes `timeout = expires_in` from the device-authorization
response. -/

/-- One provider reply to a device-code token request: a success body, or an
OAuth error body `{error, error_description?}`. -/
inductive ProviderResponse
  | success (tok : TokenResponse)
  | oauthError (code : String) (description : Option String)
deriving DecidableEq, Repr

/-- The poll result: the returned value or error. -/
inductive PollResult
  | ok (tok : TokenResponse)
  | err (e : AuthError)
deriving DecidableEq, Repr

/-- What a run of `poll_for_token` did: its result, how many token requests
it sent, and the elapsed clock when it returned. -/
structure PollOutcome where
  result : PollResult
  requests : Nat
  elapsed : Nat
deriving DecidableEq, Repr

/-- `poll_for_token` from `auth.rs`: each iteration first returns
`DeviceCodeExpired` when the elapsed wall clock has reached `timeout`, then
sleeps `interval` seconds and sends a token request.  A success body returns
the tokens.  `authorization_pending` continues at the current interval;
`slow_down` sleeps an additional fixed 5 seconds and continues with the
interval unchanged; `expired_token` fails with `DeviceCodeExpired`;
`access_denied` fails with `AuthorizationDenied`; any other code fails with
the generic API error carrying the code and description.  When the scripted
responses run out the model reports a transport failure. -/
def poll_for_token (interval timeout : Nat) (responses : List ProviderResponse)
    (elapsed : Nat) : PollOutcome :=
  if timeout ≤ elapsed then ⟨.err .deviceCodeExpired, 0, elapsed⟩
  else
    match responses with
    | [] => ⟨.err .httpFailure, 0, elapsed⟩
    | r :: rest =>
      match r with
      | .success tok => ⟨.ok tok, 1, elapsed + interval⟩
      | .oauthError code description =>
        if code = "authorization_pending" then
          let o := poll_for_token interval timeout rest (elapsed + interval)
          ⟨o.result, o.requests + 1, o.elapsed⟩
        else if code = "slow_down" then
          let o := poll_for_token interval timeout rest (elapsed + interval + 5)
          ⟨o.result, o.requests + 1, o.elapsed⟩
        else if code = "expired_token" then
          ⟨.err .deviceCodeExpired, 1, elapsed + interval⟩
        else if code = "access_denied" then
          ⟨.err .authorizationDenied, 1, elapsed + interval⟩
        else
          ⟨.err (.api (code ++ ": " ++ description.getD "")), 1, elapsed + interval⟩

/-! ## Theorems -/

/-- C10: for a path with no `sync_state` row, `update_status`, `mark_syncing`
and `mark_complete` succeed while creating no row and changing no existing
row — the store is unchanged and a get for the path still returns none
(the status transitions are pure UPDATEs keyed by path). -/
theorem status_updates_ignore_absent_path (db : Store) (file_path : String)
    (status : SyncStatus) (workflow_id : String) (now : Int)
    (h : db file_path = none) :
    update_status db file_path status = db
    ∧ mark_syncing db file_path = db
    ∧ mark_complete db file_path workflow_id now = db
    ∧ get_sync_state (update_status db file_path status) file_path = none
    ∧ get_sync_state (mark_syncing db file_path) file_path = none
    ∧ get_sync_state (mark_complete db file_path workflow_id now) file_path = none := by
  have h1 : update_status db file_path status = db := funext fun p => by
    by_cases hp : p = file_path <;> simp [update_status, hp, h]
  have h2 : mark_syncing db file_path = db := funext fun p => by
    by_cases hp : p = file_path <;> simp [mark_syncing, hp, h]
  have h3 : mark_complete db file_path workflow_id now = db := funext fun p => by
    by_cases hp : p = file_path <;> simp [mark_complete, hp, h]
  refine ⟨h1, h2, h3, ?_, ?_, ?_⟩ <;>
    simp [get_sync_state, h1, h2, h3, h]

/-- Witness for C10 at the empty store. -/
theorem status_updates_ignore_absent_path_witness :
    (fun _ => none : Store) "p" = none
    ∧ update_status (fun _ => none) "p" .error = (fun _ => none : Store)
    ∧ mark_syncing (fun _ => none) "p" = (fun _ => none : Store)
    ∧ mark_complete (fun _ => none) "p" "wf-1" 7 = (fun _ => none : Store) :=
  ⟨rfl,
   (status_updates_ignore_absent_path (fun _ => none) "p" .error "wf-1" 7 rfl).1,
   (status_updates_ignore_absent_path (fun _ => none) "p" .error "wf-1" 7 rfl).2.1,
   (status_updates_ignore_absent_path (fun _ => none) "p" .error "wf-1" 7 rfl).2.2.1⟩

/-- C6: on a lifecycle-manager tick with a stored `TokenRecord`, a refresh is
attempted if and only if `expires_at ≤ now + 60`; a record with
`expires_at > now + 60` triggers no refresh. -/
theorem tick_refreshes_iff_within_buffer (refresh_outcome : Except AuthError TokenResponse)
    (now : Nat) (token_data : TokenRecord) :
    (refresh_tick refresh_outcome now (some token_data)).2 = true
      ↔ token_data.expires_at ≤ now + 60 := by
  by_cases h : token_data.expires_at ≤ now + 60 <;>
    simp [refresh_tick, get_tokens, REFRESH_BUFFER_SECS, h]

/-- C5: a failed refresh attempt leaves the credential store holding exactly
the record present before the attempt; only a successful refresh replaces
it, and then whole (all three fields written together from the response). -/
theorem refresh_failure_leaves_record (e : AuthError) (now : Nat) (storage : CredStore) :
    (refresh_tick (.error e) now storage).1 = storage
    ∧ ∀ (tr : TokenResponse) (token_data : TokenRecord),
        storage = some token_data →
        token_data.expires_at ≤ now + REFRESH_BUFFER_SECS →
        (refresh_tick (.ok tr) now storage).1
          = some ⟨tr.access_token, tr.refresh_token, now + tr.expires_in⟩ := by
  constructor
  · match storage with
    | none => rfl
    | some token_data =>
      by_cases h : token_data.expires_at ≤ now + REFRESH_BUFFER_SECS <;>
        simp [refresh_tick, get_tokens, do_refresh, h]
  · intro tr token_data hs hle
    subst hs
    simp [refresh_tick, get_tokens, do_refresh, store_tokens, hle]

/-- Witness for C5: a transport failure at `now = 50` with a record expiring
at 100 keeps the record; a successful refresh replaces it whole. -/
theorem refresh_failure_leaves_record_witness :
    (refresh_tick (.error .httpFailure) 50 (some ⟨"a", "r", 100⟩)).1 = some ⟨"a", "r", 100⟩
    ∧ (refresh_tick (.ok ⟨"a2", "r2", 3600, ⟨"u", none, none, none⟩, none⟩) 50
        (some ⟨"a", "r", 100⟩)).1 = some ⟨"a2", "r2", 50 + 3600⟩ :=
  ⟨(refresh_failure_leaves_record .httpFailure 50 (some ⟨"a", "r", 100⟩)).1,
   (refresh_failure_leaves_record .httpFailure 50 (some ⟨"a", "r", 100⟩)).2
     ⟨"a2", "r2", 3600, ⟨"u", none, none, none⟩, none⟩ ⟨"a", "r", 100⟩ rfl (by decide)⟩

/-- C9: a non-2xx upload response yields an error result, and 401 yields
exactly the distinguished `NotAuthenticated` error while every other non-2xx
status yields the generic API error carrying status and body. -/
theorem upload_non2xx_is_error (send : Conversation → Option HttpResponse)
    (conversation : Conversation) (response : HttpResponse)
    (h : send conversation = some response)
    (h2 : ¬(200 ≤ response.status ∧ response.status ≤ 299)) :
    (∀ r, upload_conversation send conversation ≠ .ok r)
    ∧ (response.status = 401 →
        upload_conversation send conversation = .error .notAuthenticated)
    ∧ (response.status ≠ 401 →
        upload_conversation send conversation
          = .error (.api (toString response.status ++ ": " ++ response.body))) := by
  by_cases h401 : response.status = 401 <;>
    simp [upload_conversation, h, h2, h401]

/-- Witness for C9 at a 401 response and at a 500 response. -/
theorem upload_non2xx_is_error_witness :
    (¬(200 ≤ 401 ∧ 401 ≤ 299))
    ∧ upload_conversation (fun _ => some ⟨401, "unauthorized", none⟩)
        ⟨"p", "claude-code", none, none, "c"⟩ = .error .notAuthenticated
    ∧ upload_conversation (fun _ => some ⟨500, "boom", none⟩)
        ⟨"p", "claude-code", none, none, "c"⟩
        = .error (.api (toString 500 ++ ": " ++ "boom")) :=
  ⟨by decide,
   (upload_non2xx_is_error (fun _ => some ⟨401, "unauthorized", none⟩)
      ⟨"p", "claude-code", none, none, "c"⟩ ⟨401, "unauthorized", none⟩ rfl
      (by decide)).2.1 rfl,
   (upload_non2xx_is_error (fun _ => some ⟨500, "boom", none⟩)
      ⟨"p", "claude-code", none, none, "c"⟩ ⟨500, "boom", none⟩ rfl
      (by decide)).2.2 (by decide)⟩

/-- C1: when the stored hash for the path equals the hash of the file's
current content, `handle_file_change` is a no-op — it returns Ok, enqueues
nothing and leaves queue and store untouched; and for any engine, two calls
with unchanged file content enqueue at most one `SyncItem`. -/
theorem handle_unchanged_is_noop (fs : String → Option String) (now : Int)
    (engine : SyncEngine) (event : FileChangeEvent) (content : String) (st : SyncState)
    (h1 : fs event.path = some content)
    (h2 : engine.db event.path = some st)
    (h3 : st.content_hash = compute_hash content) :
    handle_file_change fs now engine event = (.ok (), engine)
    ∧ ∀ (e : SyncEngine) (now1 now2 : Int),
        (handle_file_change fs now2 (handle_file_change fs now1 e event).2 event).2.queue.length
          ≤ e.queue.length + 1 := by
  constructor
  · simp [handle_file_change, get_sync_state, h1, h2, h3]
  · intro e now1 now2
    cases hfs : fs event.path with
    | none => simp [handle_file_change, hfs]
    | some c =>
      cases hdb : e.db event.path with
      | none =>
        simp [handle_file_change, get_sync_state, hfs, hdb, upsert_sync_state]
      | some st' =>
        by_cases hh : st'.content_hash = compute_hash c
        · simp [handle_file_change, get_sync_state, hfs, hdb, hh]
        · simp [handle_file_change, get_sync_state, hfs, hdb, hh, upsert_sync_state]

/-- The filesystem for the C1 witness: one file `p` holding `hello`. -/
def noopFs : String → Option String := fun p => if p = "p" then some "hello" else none

/-- The stored row for the C1 witness: `p` was already synced at the hash of
`hello`. -/
def noopState : SyncState :=
  ⟨"p", compute_hash "hello", some 3, 3, some "wf-0", .complete⟩

/-- The engine for the C1 witness. -/
def noopEngine : SyncEngine :=
  ⟨[], fun p => if p = "p" then some noopState else none⟩

/-- Witness for C1: an event for `p` with unchanged content is a no-op. -/
theorem handle_unchanged_is_noop_witness :
    handle_file_change noopFs 9 noopEngine ⟨"p", "claude-code"⟩ = (.ok (), noopEngine) :=
  (handle_unchanged_is_noop noopFs 9 noopEngine ⟨"p", "claude-code"⟩ "hello" noopState
    rfl rfl rfl).1

/-- The stored row for the C2 counterexample: `p` completed an upload of
`old content` and holds `workflow_id = "wf-1"`. -/
def cxState : SyncState :=
  ⟨"p", compute_hash "old content", some 5, 5, some "wf-1", .complete⟩

/-- The engine for the C2 counterexample. -/
def cxEngine : SyncEngine := ⟨[], fun p => if p = "p" then some cxState else none⟩

/-- The filesystem for the C2 counterexample: `p` now holds `new content`. -/
def cxFs : String → Option String := fun p => if p = "p" then some "new content" else none

set_option maxRecDepth 1000000 in
/-- Counterexample to C2 as stated: handling a change of `p` to different
content overwrites the stored `workflow_id` — the fresh Pending upsert
replaces every column, so the previously stored `"wf-1"` becomes none. -/
theorem fresh_pending_overwrites_workflow_id :
    (cxEngine.db "p").map SyncState.workflow_id = some (some "wf-1")
    ∧ ((handle_file_change cxFs 10 cxEngine ⟨"p", "claude-code"⟩).2.db "p").map
        SyncState.workflow_id = some none := by
  constructor
  · rfl
  · decide

/-- C2 amended: the fresh Pending record written by `handle_file_change` for
changed content replaces the row whole — the new hash and modification time
are written, and `last_synced_at`, `workflow_id` are reset to none and the
status to Pending (a previously stored `workflow_id` is cleared, not kept);
rows of other paths are untouched. -/
theorem fresh_pending_replaces_record (fs : String → Option String) (now : Int)
    (engine : SyncEngine) (event : FileChangeEvent) (content : String) (st : SyncState)
    (h1 : fs event.path = some content)
    (h2 : engine.db event.path = some st)
    (h3 : st.content_hash ≠ compute_hash content) :
    (handle_file_change fs now engine event).2.db event.path
      = some ⟨event.path, compute_hash content, none, now, none, .pending⟩
    ∧ ∀ q, q ≠ event.path →
        (handle_file_change fs now engine event).2.db q = engine.db q := by
  constructor
  · simp [handle_file_change, get_sync_state, h1, h2, h3, upsert_sync_state]
  · intro q hq
    simp [handle_file_change, get_sync_state, h1, h2, h3, upsert_sync_state, hq]

set_option maxRecDepth 1000000 in
/-- Witness for C2 amended at the counterexample input: the row of `p` after
the event is the fresh Pending record with `workflow_id` cleared. -/
theorem fresh_pending_replaces_record_witness :
    (handle_file_change cxFs 10 cxEngine ⟨"p", "claude-code"⟩).2.db "p"
      = some ⟨"p", compute_hash "new content", none, 10, none, .pending⟩ :=
  (fresh_pending_replaces_record cxFs 10 cxEngine ⟨"p", "claude-code"⟩ "new content"
    cxState rfl rfl (by decide)).1

/-- Whether a processing result is a success. -/
def exceptIsOk : Except SyncError String → Bool
  | .ok _ => true
  | .error _ => false

/-- A processed item succeeds exactly when `itemSucceeds` says so; the
outcome never depends on the store. -/
theorem process_one_isOk (env : SyncEnv) (db : Store) (item : SyncItem) :
    exceptIsOk (process_one env db item).1 = itemSucceeds env item := by
  by_cases hp : env.hasParser item.parser_name
  · cases hparse : env.parse item.parser_name item.path with
    | error e => simp [process_one, itemSucceeds, exceptIsOk, hp, hparse]
    | ok conversation =>
      cases hup : upload_conversation env.send conversation <;>
        simp [process_one, itemSucceeds, exceptIsOk, hp, hparse, hup]
  · simp [process_one, itemSucceeds, exceptIsOk, hp]

/-- The drain loop, run with the queue's length as fuel, processes every
item, returns the number of successes and ends with an empty queue. -/
theorem process_all_fuel_counts (env : SyncEnv) :
    ∀ (queue : List SyncItem) (db : Store),
      (process_all_fuel env queue.length ⟨queue, db⟩).1 = queue.countP (itemSucceeds env)
      ∧ (process_all_fuel env queue.length ⟨queue, db⟩).2.queue = [] := by
  intro queue
  induction queue with
  | nil => intro db; exact ⟨rfl, rfl⟩
  | cons item rest ih =>
    intro db
    have hiok := process_one_isOk env db item
    rcases hpo : process_one env db item with ⟨res, db'⟩
    rw [hpo] at hiok
    rcases hrec : process_all_fuel env rest.length ⟨rest, db'⟩ with ⟨n, engine''⟩
    have h1 := (ih db').1
    have h2 := (ih db').2
    rw [hrec] at h1 h2
    simp only [] at h1 h2
    cases res with
    | ok w =>
      have hsucc : itemSucceeds env item = true := by rw [← hiok]; rfl
      constructor <;>
        simp [process_all_fuel, process_next, hpo, hrec, Except.map,
          List.countP_cons, hsucc, h1, h2]
    | error e =>
      have hfail : itemSucceeds env item = false := by rw [← hiok]; rfl
      constructor <;>
        simp [process_all_fuel, process_next, hpo, hrec, Except.map,
          List.countP_cons, hfail, h1, h2]

/-- C8: `process_all` drains the whole queue by repeated `process_next` —
a failing item never stops the rest — and returns exactly the number of
items whose processing succeeded. -/
theorem process_all_counts (env : SyncEnv) (engine : SyncEngine) :
    (process_all env engine).1 = engine.queue.countP (itemSucceeds env)
    ∧ (process_all env engine).2.queue = [] :=
  process_all_fuel_counts env engine.queue engine.db

/-- The collaborators for the C3 counterexample: a registry that knows no
parser. -/
def c3Env : SyncEnv :=
  { hasParser := fun _ => false, parse := fun _ _ => .error .parseFailure,
    send := fun _ => none, now := 0 }

/-- The queued item for the C3 counterexample. -/
def c3Item : SyncItem := ⟨"p", "claude-code", "h"⟩

/-- The store for the C3 counterexample: a Pending row for `p`. -/
def c3Db : Store :=
  fun p => if p = "p" then some ⟨"p", "h", none, 0, none, .pending⟩ else none

/-- The engine for the C3 counterexample. -/
def c3Engine : SyncEngine := ⟨[c3Item], c3Db⟩

/-- Counterexample to C3 as stated: popping an item whose parser name is
unknown fails, yet the row for the path is left with status Syncing, not
Error — the `NoParser` error propagates before the Error status write. -/
theorem unknown_parser_leaves_syncing :
    (process_next c3Env c3Engine).1 = .error (.noParser "claude-code")
    ∧ ((process_next c3Env c3Engine).2.db "p").map SyncState.status = some .syncing
    ∧ ((process_next c3Env c3Engine).2.db "p").map SyncState.status ≠ some .error :=
  ⟨rfl, rfl, by decide⟩

/-- C3 amended: after a popped item fails, the stored `content_hash` of every
path is unchanged (never rolled back); an upload failure sets the item's row
to status Error, while an unknown parser name or a parse failure propagates
its error with the row left in status Syncing. -/
theorem process_next_failure_semantics (env : SyncEnv) (engine : SyncEngine)
    (item : SyncItem) (rest : List SyncItem)
    (hq : engine.queue = item :: rest) :
    (∀ p, ((process_next env engine).2.db p).map SyncState.content_hash
        = (engine.db p).map SyncState.content_hash)
    ∧ (env.hasParser item.parser_name = false →
        (process_next env engine).1 = .error (.noParser item.parser_name)
        ∧ (process_next env engine).2.db item.path
          = (engine.db item.path).map (fun st => { st with status := SyncStatus.syncing }))
    ∧ (∀ e, env.hasParser item.parser_name = true →
        env.parse item.parser_name item.path = .error e →
        (process_next env engine).1 = .error e
        ∧ (process_next env engine).2.db item.path
          = (engine.db item.path).map (fun st => { st with status := SyncStatus.syncing }))
    ∧ (∀ conversation e, env.hasParser item.parser_name = true →
        env.parse item.parser_name item.path = .ok conversation →
        upload_conversation env.send conversation = .error e →
        (process_next env engine).1 = .error e
        ∧ (process_next env engine).2.db item.path
          = (engine.db item.path).map (fun st => { st with status := SyncStatus.error })) := by
  refine ⟨?_, ?_, ?_, ?_⟩
  · intro p
    by_cases hp : env.hasParser item.parser_name
    · cases hparse : env.parse item.parser_name item.path with
      | error e =>
        by_cases hpath : p = item.path
        · subst hpath
          cases hdb : engine.db item.path <;>
            simp [process_next, process_one, mark_syncing, hq, hp, hparse, hdb]
        · simp [process_next, process_one, mark_syncing, hq, hp, hparse, hpath]
      | ok conversation =>
        cases hup : upload_conversation env.send conversation with
        | ok r =>
          by_cases hpath : p = item.path
          · subst hpath
            cases hdb : engine.db item.path <;>
              simp [process_next, process_one, mark_syncing, mark_complete, hq, hp,
                hparse, hup, hdb]
          · simp [process_next, process_one, mark_syncing, mark_complete, hq, hp,
              hparse, hup, hpath]
        | error e =>
          by_cases hpath : p = item.path
          · subst hpath
            cases hdb : engine.db item.path <;>
              simp [process_next, process_one, mark_syncing, update_status, hq, hp,
                hparse, hup, hdb]
          · simp [process_next, process_one, mark_syncing, update_status, hq, hp,
              hparse, hup, hpath]
    · by_cases hpath : p = item.path
      · subst hpath
        cases hdb : engine.db item.path <;>
          simp [process_next, process_one, mark_syncing, hq, hp, hdb]
      · simp [process_next, process_one, mark_syncing, hq, hp, hpath]
  · intro hp
    constructor
    · simp [process_next, process_one, hq, hp, Except.map]
    · cases hdb : engine.db item.path <;>
        simp [process_next, process_one, mark_syncing, hq, hp, hdb]
  · intro e hp hparse
    constructor
    · simp [process_next, process_one, hq, hp, hparse, Except.map]
    · cases hdb : engine.db item.path <;>
        simp [process_next, process_one, mark_syncing, hq, hp, hparse, hdb]
  · intro conversation e hp hparse hup
    constructor
    · simp [process_next, process_one, hq, hp, hparse, hup, Except.map]
    · cases hdb : engine.db item.path <;>
        simp [process_next, process_one, mark_syncing, update_status, hq, hp, hparse,
          hup, hdb]

/-- Witness for C3 amended at the counterexample input: the hash of `p` is
unchanged and its row is left in Syncing with the `NoParser` error returned. -/
theorem process_next_failure_semantics_witness :
    ((process_next c3Env c3Engine).2.db "p").map SyncState.content_hash
      = (c3Engine.db "p").map SyncState.content_hash
    ∧ (process_next c3Env c3Engine).1 = .error (.noParser "claude-code")
    ∧ (process_next c3Env c3Engine).2.db "p"
      = (c3Engine.db "p").map (fun st => { st with status := SyncStatus.syncing }) := by
  have h := process_next_failure_semantics c3Env c3Engine c3Item [] rfl
  exact ⟨h.1 "p", (h.2.1 rfl).1, (h.2.1 rfl).2⟩

/-- Base64 without padding takes three bytes to four characters, with two or
three characters for a trailing one or two bytes. -/
theorem b64Chars_length (l : List Nat) :
    (b64Chars l).length
      = 4 * (l.length / 3) + l.length % 3 + (if l.length % 3 = 0 then 0 else 1) := by
  induction l using b64Chars.induct with
  | case1 a b c rest ih =>
    have e1 : (rest.length + 1 + 1 + 1) % 3 = rest.length % 3 := by omega
    have e2 : (rest.length + 1 + 1 + 1) / 3 = rest.length / 3 + 1 := by omega
    simp only [b64Chars, List.length_cons, ih, e1, e2]
    by_cases h0 : rest.length % 3 = 0 <;> simp [h0] <;> omega
  | case2 a b => simp [b64Chars]
  | case3 a => simp [b64Chars]
  | case4 => simp [b64Chars]

/-- Length of the url-safe base64 encoding without padding. -/
theorem base64UrlNoPad_length (l : List Nat) :
    (base64UrlNoPad l).length
      = 4 * (l.length / 3) + l.length % 3 + (if l.length % 3 = 0 then 0 else 1) :=
  b64Chars_length l

/-- `toBytesBE` produces exactly `k` bytes. -/
theorem toBytesBE_length (k : Nat) : ∀ n, (toBytesBE k n).length = k := by
  induction k with
  | zero => intro n; rfl
  | succ k ih => intro n; simp [toBytesBE, ih]

/-- One compression step always yields eight words. -/
theorem compress_length (hs block : List Nat) : (compress hs block).length = 8 := rfl

/-- Folding compression over any block list keeps eight words. -/
theorem foldl_compress_length (blocks : List (List Nat)) :
    ∀ hs : List Nat, hs.length = 8 → (blocks.foldl compress hs).length = 8 := by
  induction blocks with
  | nil => intro hs h; simpa using h
  | cons b bs ih => intro hs _; exact ih _ (compress_length hs b)

/-- Serializing hash words emits four bytes per word. -/
theorem foldr_digest_length (ws : List Nat) :
    (ws.foldr (fun w acc => toBytesBE 4 w ++ acc) []).length = 4 * ws.length := by
  induction ws with
  | nil => rfl
  | cons w ws ih => simp [toBytesBE_length, ih]; omega

/-- A SHA-256 digest is 32 bytes. -/
theorem sha256_length (msg : List Nat) : (sha256 msg).length = 32 := by
  have h8 := foldl_compress_length (chunks16 (bytesToWords (padMessage msg))) H0 rfl
  have h := foldr_digest_length ((chunks16 (bytesToWords (padMessage msg))).foldl compress H0)
  rw [h8] at h
  exact h

/-- C4: `generate`'s verifier is the url-safe base64 (no padding) encoding of
the 32 random bytes, its challenge is the url-safe base64 (no padding)
encoding of the SHA-256 digest of the verifier string, and both are the
43 characters these encodings give. -/
theorem pkce_generate_spec (verifier_bytes : List Nat) (h : verifier_bytes.length = 32) :
    (PkceChallenge.generate verifier_bytes).verifier = base64UrlNoPad verifier_bytes
    ∧ (PkceChallenge.generate verifier_bytes).challenge
        = base64UrlNoPad (sha256 (strBytes (PkceChallenge.generate verifier_bytes).verifier))
    ∧ (PkceChallenge.generate verifier_bytes).verifier.length = 43
    ∧ (PkceChallenge.generate verifier_bytes).challenge.length = 43 := by
  refine ⟨rfl, rfl, ?_, ?_⟩
  · show (base64UrlNoPad verifier_bytes).length = 43
    rw [base64UrlNoPad_length, h]
    decide
  · show (base64UrlNoPad (sha256 (strBytes (base64UrlNoPad verifier_bytes)))).length = 43
    rw [base64UrlNoPad_length, sha256_length]
    decide

/-- Witness for C4 at the 32 bytes 0,…,31. -/
theorem pkce_generate_spec_witness :
    (List.range 32).length = 32
    ∧ (PkceChallenge.generate (List.range 32)).verifier.length = 43 :=
  ⟨by simp, (pkce_generate_spec (List.range 32) (by simp)).2.2.1⟩

/-- One non-timed-out iteration of `poll_for_token`. -/
theorem poll_cons (interval timeout elapsed : Nat) (r : ProviderResponse)
    (rest : List ProviderResponse) (h : elapsed < timeout) :
    poll_for_token interval timeout (r :: rest) elapsed =
      match r with
      | .success tok => ⟨.ok tok, 1, elapsed + interval⟩
      | .oauthError code description =>
        if code = "authorization_pending" then
          let o := poll_for_token interval timeout rest (elapsed + interval)
          ⟨o.result, o.requests + 1, o.elapsed⟩
        else if code = "slow_down" then
          let o := poll_for_token interval timeout rest (elapsed + interval + 5)
          ⟨o.result, o.requests + 1, o.elapsed⟩
        else if code = "expired_token" then
          ⟨.err .deviceCodeExpired, 1, elapsed + interval⟩
        else if code = "access_denied" then
          ⟨.err .authorizationDenied, 1, elapsed + interval⟩
        else
          ⟨.err (.api (code ++ ": " ++ description.getD "")), 1, elapsed + interval⟩ := by
  conv_lhs => rw [poll_for_token.eq_def]
  rw [if_neg (Nat.not_le_of_lt h)]

/-- The wall clock at return stays below `timeout + interval + 5` whenever it
starts below it: the loop re-checks the deadline before every request and
each iteration sleeps `interval` (plus 5 on `slow_down`). -/
theorem poll_elapsed_bound (interval timeout : Nat) :
    ∀ (responses : List ProviderResponse) (elapsed : Nat),
      elapsed < timeout + interval + 5 →
      (poll_for_token interval timeout responses elapsed).elapsed
        < timeout + interval + 5 := by
  intro responses
  induction responses with
  | nil =>
    intro e he
    rw [poll_for_token.eq_def]
    by_cases h : timeout ≤ e <;> simp [h, he]
  | cons r rest ih =>
    intro e he
    by_cases h : timeout ≤ e
    · rw [poll_for_token.eq_def, if_pos h]
      exact he
    · have he' : e < timeout := Nat.lt_of_not_le h
      rw [poll_cons interval timeout e r rest he']
      cases r with
      | success tok => simp; omega
      | oauthError code description =>
        by_cases h1 : code = "authorization_pending"
        · simp only [h1, if_pos]
          simpa using ih (e + interval) (by omega)
        · by_cases h2 : code = "slow_down"
          · simp only [h1, h2, if_neg, if_pos, reduceIte]
            simpa using ih (e + interval + 5) (by omega)
          · by_cases h3 : code = "expired_token"
            · simp [h1, h2, h3]; omega
            · by_cases h4 : code = "access_denied"
              · simp [h1, h2, h3, h4]; omega
              · simp [h1, h2, h3, h4]; omega

/-- C7: the poll loop's provider-error mapping — `authorization_pending`
continues at the current interval; `slow_down` sleeps an additional fixed 5
seconds and continues with the interval unchanged; `expired_token` fails
with `DeviceCodeExpired`; `access_denied` fails with `AuthorizationDenied`;
any other code fails with a generic API error carrying code and description
— and the wall-clock bound: once the elapsed clock reaches the timeout
(`login` passes `expires_in`) the loop returns `DeviceCodeExpired` without a
further request, so any run from 0 ends before `timeout + interval + 5`. -/
theorem poll_for_token_semantics (interval timeout elapsed : Nat)
    (rest : List ProviderResponse) (tok : TokenResponse)
    (code : String) (description : Option String)
    (h : elapsed < timeout)
    (hc1 : code ≠ "authorization_pending") (hc2 : code ≠ "slow_down")
    (hc3 : code ≠ "expired_token") (hc4 : code ≠ "access_denied") :
    poll_for_token interval timeout (.success tok :: rest) elapsed
      = ⟨.ok tok, 1, elapsed + interval⟩
    ∧ poll_for_token interval timeout (.oauthError "authorization_pending" description :: rest)
        elapsed
      = ⟨(poll_for_token interval timeout rest (elapsed + interval)).result,
         (poll_for_token interval timeout rest (elapsed + interval)).requests + 1,
         (poll_for_token interval timeout rest (elapsed + interval)).elapsed⟩
    ∧ poll_for_token interval timeout (.oauthError "slow_down" description :: rest) elapsed
      = ⟨(poll_for_token interval timeout rest (elapsed + interval + 5)).result,
         (poll_for_token interval timeout rest (elapsed + interval + 5)).requests + 1,
         (poll_for_token interval timeout rest (elapsed + interval + 5)).elapsed⟩
    ∧ poll_for_token interval timeout (.oauthError "expired_token" description :: rest) elapsed
      = ⟨.err .deviceCodeExpired, 1, elapsed + interval⟩
    ∧ poll_for_token interval timeout (.oauthError "access_denied" description :: rest) elapsed
      = ⟨.err .authorizationDenied, 1, elapsed + interval⟩
    ∧ poll_for_token interval timeout (.oauthError code description :: rest) elapsed
      = ⟨.err (.api (code ++ ": " ++ description.getD "")), 1, elapsed + interval⟩
    ∧ (∀ (rs : List ProviderResponse) (e2 : Nat), timeout ≤ e2 →
        poll_for_token interval timeout rs e2 = ⟨.err .deviceCodeExpired, 0, e2⟩)
    ∧ (∀ rs : List ProviderResponse,
        (poll_for_token interval timeout rs 0).elapsed < timeout + interval + 5) := by
  refine ⟨?_, ?_, ?_, ?_, ?_, ?_, ?_, ?_⟩
  · rw [poll_cons interval timeout elapsed _ rest h]
  · rw [poll_cons interval timeout elapsed _ rest h]
    rfl
  · rw [poll_cons interval timeout elapsed _ rest h]
    rfl
  · rw [poll_cons interval timeout elapsed _ rest h]
    rfl
  · rw [poll_cons interval timeout elapsed _ rest h]
    rfl
  · rw [poll_cons interval timeout elapsed _ rest h]
    simp [hc1, hc2, hc3, hc4]
  · intro rs e2 h2
    rw [poll_for_token.eq_def, if_pos h2]
  · intro rs
    exact poll_elapsed_bound interval timeout rs 0 (by omega)

/-- A fixed token-endpoint success body for the C7 witness. -/
def tok0 : TokenResponse := ⟨"at", "rt", 3600, ⟨"u", none, none, none⟩, none⟩

/-- Witness for C7 with interval 5, timeout 30: an unknown error code maps to
the generic API error after the 5-second sleep. -/
theorem poll_for_token_semantics_witness :
    poll_for_token 5 30 [.oauthError "invalid_grant" (some "bad")] 0
      = ⟨.err (.api ("invalid_grant" ++ ": " ++ (some "bad").getD "")), 1, 0 + 5⟩
    ∧ poll_for_token 5 30 [.success tok0] 0 = ⟨.ok tok0, 1, 0 + 5⟩ :=
  ⟨(poll_for_token_semantics 5 30 0 [] tok0 "invalid_grant" (some "bad") (by decide)
      (by decide) (by decide) (by decide) (by decide)).2.2.2.2.2.1,
   (poll_for_token_semantics 5 30 0 [] tok0 "invalid_grant" (some "bad") (by decide)
      (by decide) (by decide) (by decide) (by decide)).1⟩

end DuplexStream
